import Mathlib

/-!
Shallow embedding of `switchbot/__init__.py` (pySwitchbot): command encoding,
the CRC-32 password derivation, the send-with-retry session state machine,
the curtain facade's optimistic position cache, and the passive advertisement
decoder (`ScanSwitchBotNotificationDelegate.handleDiscovery`) with Python's
clamped slice and `int(_, 16)` semantics made explicit.
-/

namespace PySwitchbot

/-! ### Protocol constants (module-level constants of the source) -/

def KEY_PASSWORD_PREFIX : String := "5711"

def PRESS_KEY : String := "570100"

def ON_KEY : String := "570101"

def OFF_KEY : String := "570102"

def OPEN_KEY : String := "570f450105ff00"

def CLOSE_KEY : String := "570f450105ff64"

def POSITION_KEY : String := "570F450105ff"

def STOP_KEY : String := "570F450100ff"

def ON_KEY_SUFFIX : String := "01"

def OFF_KEY_SUFFIX : String := "02"

def PRESS_KEY_SUFFIX : String := "00"

def DEFAULT_RETRY_COUNT : Nat := 3

/-! ### CRC-32 (`binascii.crc32`): reflected polynomial 0xEDB88320,
initial value 0xFFFFFFFF, final xor 0xFFFFFFFF. -/

def crc32Step (c : Nat) : Nat :=
  if c % 2 = 1 then (c / 2) ^^^ 0xEDB88320 else c / 2

def crc32Bits : Nat → Nat → Nat
  | c, 0 => c
  | c, n + 1 => crc32Bits (crc32Step c) n

def crc32Update (c b : Nat) : Nat := crc32Bits (c ^^^ b % 256) 8

def crc32 (bytes : List Nat) : Nat :=
  (bytes.foldl crc32Update 0xFFFFFFFF) ^^^ 0xFFFFFFFF

/-- `s.encode('ascii')`: the code points of the string (the source only ever
passes ASCII secrets, where code point = byte). -/
def asciiBytes (s : String) : List Nat := s.data.map Char.toNat

/-! ### Python integer formatting -/

/-- Hexadecimal digit character, lowercase (as `'%x'` renders). -/
def hexChar (n : Nat) : Char :=
  if n < 10 then Char.ofNat (48 + n) else Char.ofNat (87 + n)

def natHexDigitsAux : Nat → Nat → List Char → List Char
  | 0, _, acc => acc
  | fuel + 1, n, acc =>
    if n < 16 then hexChar n :: acc
    else natHexDigitsAux fuel (n / 16) (hexChar (n % 16) :: acc)

/-- Big-endian lowercase hexadecimal digits of `n`, no leading zeros
(`natHexDigits 0 = ['0']`, as Python renders `'%x' % 0`). -/
def natHexDigits (n : Nat) : List Char := natHexDigitsAux (n + 1) n []

/-- `'%x' % n` for a nonnegative integer: lowercase hex, no padding. -/
def pyFormatX (n : Nat) : String := String.mk (natHexDigits n)

/-- `"%0.2X" % n`: uppercase hexadecimal, at least 2 digits (zero padded),
sign in front for a negative argument. -/
def pyFormat02X (n : Int) : String :=
  let ds := (natHexDigits n.natAbs).map Char.toUpper
  let padded := List.replicate (2 - ds.length) '0' ++ ds
  String.mk (if n < 0 then '-' :: padded else padded)

/-- `str.lower()` (ASCII data in all uses here). -/
def pyLower (s : String) : String := String.mk (s.data.map Char.toLower)

/-- A lowercase hexadecimal digit character. -/
def isLowerHexChar (c : Char) : Bool :=
  ('0' ≤ c && c ≤ '9') || ('a' ≤ c && c ≤ 'f')

/-- An uppercase hexadecimal digit character. -/
def isUpperHexChar (c : Char) : Bool :=
  ('0' ≤ c && c ≤ '9') || ('A' ≤ c && c ≤ 'F')

/-! ### Python `int(s, 16)` on plain hex-digit strings and clamped slices -/

def hexDigitVal (c : Char) : Option Nat :=
  if '0' ≤ c ∧ c ≤ '9' then some (c.toNat - 48)
  else if 'a' ≤ c ∧ c ≤ 'f' then some (c.toNat - 87)
  else if 'A' ≤ c ∧ c ≤ 'F' then some (c.toNat - 55)
  else none

/-- The ASCII whitespace `int()` strips before and after the literal. -/
def isPySpace (c : Char) : Bool :=
  c = ' ' || c = '\t' || c = '\n' || c = '\x0b' || c = '\x0c' || c = '\r'

/-- Strip leading and trailing whitespace, as `int()` does. -/
def stripPySpace (cs : List Char) : List Char :=
  ((cs.dropWhile isPySpace).reverse.dropWhile isPySpace).reverse

/-- The remainder of a hexadecimal digit run after its first digit: more
digits, a single underscore permitted only between two digits. -/
def hexDigitsTail : Nat → List Char → Option Nat
  | acc, [] => some acc
  | acc, [c] =>
    match hexDigitVal c with
    | some d => some (acc * 16 + d)
    | none => none
  | acc, c :: c2 :: cs =>
    match hexDigitVal c with
    | some d => hexDigitsTail (acc * 16 + d) (c2 :: cs)
    | none =>
      if c = '_' then
        match hexDigitVal c2 with
        | some d2 => hexDigitsTail (acc * 16 + d2) cs
        | none => none
      else none

/-- A non-empty hexadecimal digit run (underscores only between digits). -/
def hexRunVal : List Char → Option Nat
  | [] => none
  | c :: rest =>
    match hexDigitVal c with
    | some d => hexDigitsTail d rest
    | none => none

/-- The magnitude after the optional sign: an optional `0x`/`0X` prefix
(one underscore may follow it), then a digit run. -/
def parsePyHexMagnitude : List Char → Option Nat
  | c :: x :: rest =>
    if c = '0' && (x = 'x' || x = 'X') then
      match rest with
      | r :: rest2 => if r = '_' then hexRunVal rest2 else hexRunVal (r :: rest2)
      | [] => hexRunVal []
    else hexRunVal (c :: x :: rest)
  | cs => hexRunVal cs

/-- `int(s, 16)` on ASCII data: surrounding whitespace stripped, one
optional sign, an optional `0x`/`0X` prefix, hexadecimal digits with single
underscores between digits; `none` models the `ValueError` raised on
anything else (checked against CPython on every ASCII string of length at
most two — the only lengths the decoder parses — and exhaustively on longer
strings over a targeted alphabet). -/
def pyIntHex (cs : List Char) : Option Int :=
  match stripPySpace cs with
  | [] => none
  | c :: rest =>
    if c = '+' then (parsePyHexMagnitude rest).map (fun n => (n : Int))
    else if c = '-' then (parsePyHexMagnitude rest).map (fun n => -(n : Int))
    else (parsePyHexMagnitude (c :: rest)).map (fun n => (n : Int))

/-- A Python slice endpoint resolved against a sequence of length `len`:
negative indices count from the end and are clamped at 0, nonnegative ones
are clamped at `len`. -/
def pyIdx (len : Nat) (i : Int) : Nat :=
  if i < 0 then len - (-i).toNat else min i.toNat len

/-- `xs[a:b]` with Python's clamping semantics. -/
def pySlice (xs : List Char) (a b : Int) : List Char :=
  let s := pyIdx xs.length a
  let e := pyIdx xs.length b
  (xs.drop s).take (e - s)

/-- `xs[a:]` with Python's clamping semantics. -/
def pySliceFrom (xs : List Char) (a : Int) : List Char :=
  xs.drop (pyIdx xs.length a)

/-! ### `SwitchbotDevice`: identity construction and command encoding -/

structure SwitchbotDevice where
  _mac : String
  _retry_count : Nat
  _password_encoded : Option String
deriving DecidableEq

/-- `SwitchbotDevice.__init__`: the encoded password is `None` when the
password is `None` or the empty string, else
`'%x' % (binascii.crc32(password.encode('ascii')) & 0xffffffff)`. -/
def switchbotDeviceInit (mac : String) (retry_count : Nat)
    (password : Option String) : SwitchbotDevice :=
  { _mac := mac
    _retry_count := retry_count
    _password_encoded :=
      match password with
      | none => none
      | some p =>
        if p = "" then none
        else some (pyFormatX (crc32 (asciiBytes p) &&& 0xffffffff)) }

/-- `SwitchbotDevice._commandkey`, with the device's `_password_encoded`
passed explicitly. -/
def _commandkey (password_encoded : Option String) (key : String) : String :=
  match password_encoded with
  | none => key
  | some pw =>
    let key_suffix :=
      if key = ON_KEY then ON_KEY_SUFFIX
      else if key = OFF_KEY then OFF_KEY_SUFFIX
      else PRESS_KEY_SUFFIX
    KEY_PASSWORD_PREFIX ++ pw ++ key_suffix

/-! ### The session state machine (`_connect`, `_writekey`, `_disconnect`,
`_sendcommand`), with the transport abstracted as a per-attempt behaviour. -/

/-- What the BLE transport does on one attempt: whether `Peripheral(...)`
raises, whether `hand.write(...)` raises, the acknowledgement `write`
returns when it does not raise, and whether `device.disconnect()` raises. -/
structure AttemptBehavior where
  connectOk : Bool
  writeRaises : Bool
  writeAck : Bool
  disconnectRaises : Bool
deriving DecidableEq

/-- `SwitchbotDevice._connect`: reuse an existing handle, else open one;
on transport failure the stored handle is reset to `None` and the
exception re-raised (`Except.error`). -/
def _connect (device : Option Unit) (connectOk : Bool) :
    Except Unit (Option Unit) :=
  match device with
  | some d => .ok (some d)
  | none => if connectOk then .ok (some ()) else .error ()

/-- `SwitchbotDevice._writekey`: the write either raises (`Except.error`)
or returns its acknowledgement boolean. -/
def _writekey (writeRaises writeAck : Bool) : Except Unit Bool :=
  if writeRaises then .error () else .ok writeAck

/-- `SwitchbotDevice._disconnect`: nothing to do without a handle; with one,
`device.disconnect()` is attempted, a transport exception from it is caught
and logged, and the `finally` block clears the handle unconditionally.
Returns the stored handle afterwards and whether a disconnect was attempted;
the `disconnectRaises` flag is consumed without affecting either. -/
def _disconnect (device : Option Unit) (disconnectRaises : Bool) :
    Option Unit × Bool :=
  match device with
  | none => (none, false)
  | some _ =>
    match disconnectRaises with
    | true => (none, true)
    | false => (none, true)

/-- The `try/except/finally` body of one `_sendcommand` attempt:
`(send_success, stored handle after the finally, disconnect attempted)`. -/
structure AttemptResult where
  send_success : Bool
  device : Option Unit
  disconnectAttempted : Bool
deriving DecidableEq

def sendAttempt (device : Option Unit) (b : AttemptBehavior) : AttemptResult :=
  match _connect device b.connectOk with
  | .error _ =>
    let d := _disconnect none b.disconnectRaises
    ⟨false, d.1, d.2⟩
  | .ok dev =>
    match _writekey b.writeRaises b.writeAck with
    | .error _ =>
      let d := _disconnect dev b.disconnectRaises
      ⟨false, d.1, d.2⟩
    | .ok ack =>
      let d := _disconnect dev b.disconnectRaises
      ⟨ack, d.1, d.2⟩

/-- Observable trace of a whole `_sendcommand` call: the returned boolean,
how many attempts ran, in how many of them a disconnect was attempted on an
open handle, and the stored handle when the call returns. -/
structure SendTrace where
  result : Bool
  attempts : Nat
  disconnects : Nat
  deviceAfter : Option Unit
deriving DecidableEq

/-- `SwitchbotDevice._sendcommand`: one attempt, then on failure either give
up (`retry < 1`) or sleep and recurse with `retry - 1`. The transport's
behaviour on the k-th attempt is `transport (idx + k)`. -/
def _sendcommand (transport : Nat → AttemptBehavior) (idx : Nat)
    (device : Option Unit) : Nat → SendTrace
  | 0 =>
    let a := sendAttempt device (transport idx)
    ⟨a.send_success, 1, if a.disconnectAttempted then 1 else 0, a.device⟩
  | retry + 1 =>
    let a := sendAttempt device (transport idx)
    if a.send_success then
      ⟨true, 1, if a.disconnectAttempted then 1 else 0, a.device⟩
    else
      let rest := _sendcommand transport (idx + 1) a.device retry
      ⟨rest.result, rest.attempts + 1,
        rest.disconnects + (if a.disconnectAttempted then 1 else 0),
        rest.deviceAfter⟩

/-- The write fails on this attempt: the link opens but the write raises or
returns a falsy acknowledgement. -/
def writeFailed (b : AttemptBehavior) : Prop :=
  b.connectOk = true ∧ (b.writeRaises = true ∨ b.writeAck = false)

/-- The write succeeds on this attempt. -/
def writeSucceeded (b : AttemptBehavior) : Prop :=
  b.connectOk = true ∧ b.writeRaises = false ∧ b.writeAck = true

instance : DecidablePred writeFailed := fun b => by
  unfold writeFailed; infer_instance

instance : DecidablePred writeSucceeded := fun b => by
  unfold writeSucceeded; infer_instance

/-! ### `SwitchbotCurtain`: optimistic position cache and commands.
Each verb returns the updated facade state, the key handed to
`_sendcommand`, and the boolean the abstracted session returns. -/

structure SwitchbotCurtain extends SwitchbotDevice where
  _reverse : Bool
  _pos : Int
  _light_level : Int
  _battery_percent : Int
deriving DecidableEq

/-- `SwitchbotCurtain.__init__`: cached fields start at zero. -/
def switchbotCurtainInit (mac : String) (retry_count : Nat)
    (password : Option String) (reverse_mode : Bool) : SwitchbotCurtain :=
  { switchbotDeviceInit mac retry_count password with
    _reverse := reverse_mode
    _pos := 0
    _light_level := 0
    _battery_percent := 0 }

def SwitchbotCurtain.openCurtain (send : String → Nat → Bool)
    (s : SwitchbotCurtain) : SwitchbotCurtain × String × Bool :=
  let s := { s with _pos := if s._reverse then 100 else 0 }
  (s, OPEN_KEY, send OPEN_KEY s._retry_count)

def SwitchbotCurtain.closeCurtain (send : String → Nat → Bool)
    (s : SwitchbotCurtain) : SwitchbotCurtain × String × Bool :=
  let s := { s with _pos := if s._reverse then 0 else 100 }
  (s, CLOSE_KEY, send CLOSE_KEY s._retry_count)

/-- `SwitchbotCurtain.set_position`: reverse-adjust, cache optimistically,
then send `POSITION_KEY` plus the `"%0.2X"` rendering of the position. -/
def SwitchbotCurtain.set_position (send : String → Nat → Bool)
    (s : SwitchbotCurtain) (position : Int) : SwitchbotCurtain × String × Bool :=
  let position := if s._reverse then 100 - position else position
  let s := { s with _pos := position }
  let hex_position := pyFormat02X position
  (s, POSITION_KEY ++ hex_position,
    send (POSITION_KEY ++ hex_position) s._retry_count)

def SwitchbotCurtain.get_position (s : SwitchbotCurtain) : Int := s._pos

def SwitchbotCurtain.get_battery_percent (s : SwitchbotCurtain) : Int :=
  s._battery_percent

def SwitchbotCurtain.get_light_level (s : SwitchbotCurtain) : Int :=
  s._light_level

/-! ### The scan delegate (`ScanSwitchBotNotificationDelegate.handleDiscovery`).
Python field assignments mutate the shared curtain object one at a time, so a
`ValueError` from a later `int(_, 16)` leaves the earlier assignments in
place; the outcome records the curtain state at the moment the handler
returns or the exception escapes. -/

structure ScanOutcome where
  driver : SwitchbotCurtain
  raised : Bool
deriving DecidableEq

/-- The body run for one type-22 advertisement value: three sequential
`int(barray[slice], 16)` parses and field assignments. -/
def processAdv (s : SwitchbotCurtain) (value : String) : ScanOutcome :=
  let barray := value.data
  match pyIntHex (pySlice barray (-6) (-4)) with
  | none => ⟨s, true⟩
  | some battery =>
    let s := { s with _battery_percent := battery }
    match pyIntHex (pySlice barray (-4) (-2)) with
    | none => ⟨s, true⟩
    | some position =>
      let s := { s with _pos := position }
      match pyIntHex (pySliceFrom barray (-2)) with
      | none => ⟨s, true⟩
      | some light => ⟨{ s with _light_level := light }, false⟩

def handleDiscoveryLoop (s : SwitchbotCurtain) :
    List (Nat × String) → ScanOutcome
  | [] => ⟨s, false⟩
  | (adtype, value) :: rest =>
    if adtype = 22 then
      let o := processAdv s value
      if o.raised then o else handleDiscoveryLoop o.driver rest
    else handleDiscoveryLoop s rest

/-- `handleDiscovery`: when the advertiser's address matches the device's
MAC case-insensitively, process every type-22 scan-data entry in order. -/
def handleDiscovery (s : SwitchbotCurtain) (devAddr : String)
    (scanData : List (Nat × String)) : ScanOutcome :=
  if pyLower s._mac = pyLower devAddr then handleDiscoveryLoop s scanData
  else ⟨s, false⟩

/-! ### Concrete fixtures used by witness and counterexample statements -/

/-- A transport session stub whose result is irrelevant to the statement. -/
def sendStub : String → Nat → Bool := fun _ _ => false

/-- A curtain with distinctive cached values, address `"e1:a2"`. -/
def curtainFixture : SwitchbotCurtain :=
  { _mac := "e1:a2", _retry_count := 3, _password_encoded := none,
    _reverse := false, _pos := 2, _light_level := 3, _battery_percent := 4 }

/-- The same curtain in reverse mode. -/
def curtainFixtureRev : SwitchbotCurtain := { curtainFixture with _reverse := true }

/-- A transport that connects, then fails the write on attempts 0 and 1 and
acknowledges it from attempt 2 on. -/
def transportFailTwice : Nat → AttemptBehavior :=
  fun i => ⟨true, false, decide (2 ≤ i), false⟩

/-- A transport whose write always raises; disconnects succeed. -/
def transportWriteRaises : Nat → AttemptBehavior := fun _ => ⟨true, true, false, false⟩

/-- Same transport, but every disconnect raises as well. -/
def transportWriteRaisesDR : Nat → AttemptBehavior := fun _ => ⟨true, true, false, true⟩

end PySwitchbot

namespace PySwitchbot

/-! ## Session state machine lemmas -/

theorem sendAttempt_device_none (dev : Option Unit) (b : AttemptBehavior) :
    (sendAttempt dev b).device = none := by
  obtain ⟨co, wr, wa, dr⟩ := b
  cases dev <;> cases co <;> cases wr <;> cases wa <;> cases dr <;> rfl

theorem sendAttempt_disconnect_iff (dev : Option Unit) (b : AttemptBehavior) :
    (sendAttempt dev b).disconnectAttempted = (dev.isSome || b.connectOk) := by
  obtain ⟨co, wr, wa, dr⟩ := b
  cases dev <;> cases co <;> cases wr <;> cases wa <;> cases dr <;> rfl

theorem sendAttempt_of_writeFailed {b : AttemptBehavior} (h : writeFailed b) :
    sendAttempt none b = ⟨false, none, true⟩ := by
  obtain ⟨co, wr, wa, dr⟩ := b
  cases co <;> cases wr <;> cases wa <;> cases dr <;>
    first | rfl | simp [writeFailed] at h

theorem sendAttempt_of_writeSucceeded {b : AttemptBehavior} (h : writeSucceeded b) :
    sendAttempt none b = ⟨true, none, true⟩ := by
  obtain ⟨co, wr, wa, dr⟩ := b
  cases co <;> cases wr <;> cases wa <;> cases dr <;>
    first | rfl | simp [writeSucceeded] at h

theorem sendAttempt_ignores_disconnectRaises (dev : Option Unit)
    (b b2 : AttemptBehavior) (h1 : b.connectOk = b2.connectOk)
    (h2 : b.writeRaises = b2.writeRaises) (h3 : b.writeAck = b2.writeAck) :
    sendAttempt dev b = sendAttempt dev b2 := by
  obtain ⟨co, wr, wa, dr⟩ := b
  obtain ⟨co2, wr2, wa2, dr2⟩ := b2
  simp only at h1 h2 h3
  subst h1; subst h2; subst h3
  cases dev <;> cases co <;> cases wr <;> cases wa <;> cases dr <;> cases dr2 <;> rfl

theorem sendcommand_succeeds (transport : Nat → AttemptBehavior) :
    ∀ N idx retry : Nat, (∀ i, i < N → writeFailed (transport (idx + i))) →
      writeSucceeded (transport (idx + N)) → N ≤ retry →
      _sendcommand transport idx none retry = ⟨true, N + 1, N + 1, none⟩ := by
  intro N
  induction N with
  | zero =>
    intro idx retry _ hs _
    rw [Nat.add_zero] at hs
    have ha := sendAttempt_of_writeSucceeded hs
    cases retry with
    | zero => simp [_sendcommand, ha]
    | succ r => simp [_sendcommand, ha]
  | succ N ih =>
    intro idx retry hf hs hle
    obtain ⟨r, rfl⟩ : ∃ r, retry = r + 1 := ⟨retry - 1, by omega⟩
    have ha := sendAttempt_of_writeFailed (hf 0 (by omega))
    rw [Nat.add_zero] at ha
    have hrest := ih (idx + 1) r
      (fun i hi => by
        have h := hf (i + 1) (by omega)
        rwa [show idx + (i + 1) = idx + 1 + i by omega] at h)
      (by rwa [show idx + 1 + N = idx + (N + 1) by omega])
      (by omega)
    simp [_sendcommand, ha, hrest]

theorem sendcommand_allFail (transport : Nat → AttemptBehavior) :
    ∀ retry idx : Nat, (∀ i, i ≤ retry → writeFailed (transport (idx + i))) →
      _sendcommand transport idx none retry = ⟨false, retry + 1, retry + 1, none⟩ := by
  intro retry
  induction retry with
  | zero =>
    intro idx hf
    have ha := sendAttempt_of_writeFailed (hf 0 (by omega))
    rw [Nat.add_zero] at ha
    simp [_sendcommand, ha]
  | succ r ih =>
    intro idx hf
    have ha := sendAttempt_of_writeFailed (hf 0 (by omega))
    rw [Nat.add_zero] at ha
    have hrest := ih (idx + 1) (fun i hi => by
      have h := hf (i + 1) (by omega)
      rwa [show idx + (i + 1) = idx + 1 + i by omega] at h)
    simp [_sendcommand, ha, hrest]

theorem sendcommand_deviceAfter (transport : Nat → AttemptBehavior) :
    ∀ retry idx dev, (_sendcommand transport idx dev retry).deviceAfter = none := by
  intro retry
  induction retry with
  | zero => intro idx dev; simp [_sendcommand, sendAttempt_device_none]
  | succ r ih =>
    intro idx dev
    simp only [_sendcommand]
    split
    · exact sendAttempt_device_none dev (transport idx)
    · exact ih (idx + 1) _

theorem sendcommand_ignores_disconnectRaises (t t2 : Nat → AttemptBehavior)
    (hagree : ∀ i, (t i).connectOk = (t2 i).connectOk ∧
      (t i).writeRaises = (t2 i).writeRaises ∧ (t i).writeAck = (t2 i).writeAck) :
    ∀ retry idx dev, _sendcommand t idx dev retry = _sendcommand t2 idx dev retry := by
  intro retry
  induction retry with
  | zero =>
    intro idx dev
    have he := sendAttempt_ignores_disconnectRaises dev (t idx) (t2 idx)
      (hagree idx).1 (hagree idx).2.1 (hagree idx).2.2
    simp [_sendcommand, he]
  | succ r ih =>
    intro idx dev
    have he := sendAttempt_ignores_disconnectRaises dev (t idx) (t2 idx)
      (hagree idx).1 (hagree idx).2.1 (hagree idx).2.2
    simp only [_sendcommand, he, ih (idx + 1)]

/-! ## Claim theorems: the session state machine -/

/-- C2: with a transport whose write fails on the first N attempts and
succeeds on attempt N+1, `_sendcommand` with a retry budget of at least N
returns true after exactly N+1 attempts, attempting a disconnect in each of
them; with a budget below N it returns false after exactly budget+1
attempts. -/
theorem sendCommand_retry_semantics (transport : Nat → AttemptBehavior)
    (N retry : Nat) (hfail : ∀ i, i < N → writeFailed (transport i))
    (hsucc : writeSucceeded (transport N)) :
    (N ≤ retry → _sendcommand transport 0 none retry = ⟨true, N + 1, N + 1, none⟩) ∧
    (retry < N → (_sendcommand transport 0 none retry).result = false ∧
      (_sendcommand transport 0 none retry).attempts = retry + 1) := by
  constructor
  · intro h
    exact sendcommand_succeeds transport N 0 retry
      (fun i hi => by simpa using hfail i hi) (by simpa using hsucc) h
  · intro h
    have hall := sendcommand_allFail transport retry 0
      (fun i hi => by simpa using hfail i (by omega))
    rw [hall]
    exact ⟨rfl, rfl⟩

/-- C2 witness: the concrete fail-twice transport with budgets 3 and 1. -/
theorem sendCommand_retry_semantics_witness :
    (∀ i, i < 2 → writeFailed (transportFailTwice i)) ∧
    writeSucceeded (transportFailTwice 2) ∧
    _sendcommand transportFailTwice 0 none 3 = ⟨true, 3, 3, none⟩ ∧
    (_sendcommand transportFailTwice 0 none 1).result = false ∧
    (_sendcommand transportFailTwice 0 none 1).attempts = 2 :=
  ⟨by decide, by decide,
   (sendCommand_retry_semantics transportFailTwice 2 3 (by decide) (by decide)).1
     (by decide),
   ((sendCommand_retry_semantics transportFailTwice 2 1 (by decide) (by decide)).2
     (by decide)).1,
   ((sendCommand_retry_semantics transportFailTwice 2 1 (by decide) (by decide)).2
     (by decide)).2⟩

/-- C3: every attempt leaves the stored connection handle cleared, a
disconnect is attempted exactly when a handle was open (pre-existing or
freshly connected), and neither an attempt's outcome nor a whole
`_sendcommand` trace depends on whether `device.disconnect()` raises. -/
theorem session_releases_handle (t t2 : Nat → AttemptBehavior) (idx retry : Nat)
    (dev : Option Unit) (b : AttemptBehavior)
    (hagree : ∀ i, (t i).connectOk = (t2 i).connectOk ∧
      (t i).writeRaises = (t2 i).writeRaises ∧ (t i).writeAck = (t2 i).writeAck) :
    (sendAttempt dev b).device = none ∧
    (sendAttempt dev b).disconnectAttempted = (dev.isSome || b.connectOk) ∧
    (∀ x, sendAttempt dev b = sendAttempt dev { b with disconnectRaises := x }) ∧
    (_sendcommand t idx dev retry).deviceAfter = none ∧
    _sendcommand t idx dev retry = _sendcommand t2 idx dev retry :=
  ⟨sendAttempt_device_none dev b, sendAttempt_disconnect_iff dev b,
   fun x => sendAttempt_ignores_disconnectRaises dev b _ rfl rfl rfl,
   sendcommand_deviceAfter t retry idx dev,
   sendcommand_ignores_disconnectRaises t t2 hagree retry idx dev⟩

/-- C3 witness: a write-raising transport, with and without raising
disconnects. -/
theorem session_releases_handle_witness :
    (sendAttempt none ⟨true, true, false, false⟩).device = none ∧
    (sendAttempt none ⟨true, true, false, false⟩).disconnectAttempted = true ∧
    (_sendcommand transportWriteRaises 0 none 2).deviceAfter = none ∧
    _sendcommand transportWriteRaises 0 none 2
      = _sendcommand transportWriteRaisesDR 0 none 2 := by
  have h := session_releases_handle transportWriteRaises transportWriteRaisesDR 0 2
    none ⟨true, true, false, false⟩ (fun _ => ⟨rfl, rfl, rfl⟩)
  exact ⟨h.1, h.2.1, h.2.2.2.1, h.2.2.2.2⟩

/-! ## Claim theorems: command encoding -/

/-- C5: without a password `_commandkey` returns the base opcode unchanged;
with one it returns `"5711"`, the encoded password, and the suffix `"01"`
for the on opcode, `"02"` for the off opcode, and `"00"` for every other
command — a result in which the base opcode plays no part. -/
theorem commandkey_encoding (key pw : String) :
    _commandkey none key = key ∧
    _commandkey (some pw) ON_KEY = "5711" ++ pw ++ "01" ∧
    _commandkey (some pw) OFF_KEY = "5711" ++ pw ++ "02" ∧
    (key ≠ ON_KEY → key ≠ OFF_KEY →
      _commandkey (some pw) key = "5711" ++ pw ++ "00") := by
  refine ⟨rfl, rfl, ?_, fun h1 h2 => ?_⟩
  · simp [_commandkey, ON_KEY, OFF_KEY, KEY_PASSWORD_PREFIX, OFF_KEY_SUFFIX]
  · simp [_commandkey, h1, h2, KEY_PASSWORD_PREFIX, PRESS_KEY_SUFFIX]

/-- C5 witness: the curtain open opcode is neither on nor off, so it gets
the press suffix. -/
theorem commandkey_encoding_witness :
    OPEN_KEY ≠ ON_KEY ∧ OPEN_KEY ≠ OFF_KEY ∧
    _commandkey (some "abc") OPEN_KEY = "5711" ++ "abc" ++ "00" ∧
    _commandkey none STOP_KEY = STOP_KEY :=
  ⟨by decide, by decide,
   (commandkey_encoding OPEN_KEY "abc").2.2.2 (by decide) (by decide),
   (commandkey_encoding STOP_KEY "abc").1⟩

/-- C9: an empty-string password is treated exactly like no password: the
construction yields the same device, the encoded password is `None`, and
every command encodes to its raw base opcode. -/
theorem empty_password_like_none (mac : String) (r : Nat) (key : String) :
    switchbotDeviceInit mac r (some "") = switchbotDeviceInit mac r none ∧
    (switchbotDeviceInit mac r (some ""))._password_encoded = none ∧
    _commandkey (switchbotDeviceInit mac r (some ""))._password_encoded key = key :=
  ⟨rfl, rfl, rfl⟩

/-! ## Claim theorems: the curtain's optimistic cache -/

/-- C4: curtain commands write the commanded (reverse-adjusted) target into
the position cache before the send result exists: `set_position 70` on a
non-reversed curtain caches 70, and in reverse mode `close` caches 0 and
`open` caches 100; the cached state never depends on the session's
outcome. -/
theorem curtain_optimistic_cache (send send2 : String → Nat → Bool)
    (s : SwitchbotCurtain) (p : Int) :
    (s._reverse = false → (SwitchbotCurtain.set_position send s 70).1._pos = 70) ∧
    (s._reverse = true → (SwitchbotCurtain.closeCurtain send s).1._pos = 0 ∧
      (SwitchbotCurtain.openCurtain send s).1._pos = 100) ∧
    (SwitchbotCurtain.set_position send s p).1
      = (SwitchbotCurtain.set_position send2 s p).1 ∧
    (SwitchbotCurtain.openCurtain send s).1
      = (SwitchbotCurtain.openCurtain send2 s).1 ∧
    (SwitchbotCurtain.closeCurtain send s).1
      = (SwitchbotCurtain.closeCurtain send2 s).1 := by
  refine ⟨fun h => ?_, fun h => ⟨?_, ?_⟩, rfl, rfl, rfl⟩ <;>
    simp [SwitchbotCurtain.set_position, SwitchbotCurtain.closeCurtain,
      SwitchbotCurtain.openCurtain, h]

/-- C4 witness: the fixture curtain, in both orientations. -/
theorem curtain_optimistic_cache_witness :
    curtainFixture._reverse = false ∧ curtainFixtureRev._reverse = true ∧
    (SwitchbotCurtain.set_position sendStub curtainFixture 70).1._pos = 70 ∧
    (SwitchbotCurtain.closeCurtain sendStub curtainFixtureRev).1._pos = 0 ∧
    (SwitchbotCurtain.openCurtain sendStub curtainFixtureRev).1._pos = 100 :=
  ⟨rfl, rfl,
   (curtain_optimistic_cache sendStub sendStub curtainFixture 0).1 rfl,
   ((curtain_optimistic_cache sendStub sendStub curtainFixtureRev 0).2.1 rfl).1,
   ((curtain_optimistic_cache sendStub sendStub curtainFixtureRev 0).2.1 rfl).2⟩

/-- C10: in reverse mode `set_position p` caches the device-facing value
100 − p, so `set_position 100` caches 0 while `open` caches 100 although
both command full open — the two cache scales disagree. -/
theorem reverse_cache_scale (send : String → Nat → Bool) (s : SwitchbotCurtain)
    (p : Int) (h : s._reverse = true) :
    (SwitchbotCurtain.set_position send s p).1.get_position = 100 - p ∧
    (SwitchbotCurtain.set_position send s 100).1.get_position = 0 ∧
    (SwitchbotCurtain.openCurtain send s).1.get_position = 100 := by
  simp [SwitchbotCurtain.set_position, SwitchbotCurtain.openCurtain,
    SwitchbotCurtain.get_position, h]

/-- C10 witness: the reversed fixture at set_position 30, 100 and open. -/
theorem reverse_cache_scale_witness :
    curtainFixtureRev._reverse = true ∧
    (SwitchbotCurtain.set_position sendStub curtainFixtureRev 30).1.get_position = 70 ∧
    (SwitchbotCurtain.set_position sendStub curtainFixtureRev 100).1.get_position = 0 ∧
    (SwitchbotCurtain.openCurtain sendStub curtainFixtureRev).1.get_position = 100 := by
  have h := reverse_cache_scale sendStub curtainFixtureRev 30 rfl
  have h2 := reverse_cache_scale sendStub curtainFixtureRev 100 rfl
  exact ⟨rfl, by rw [h.1]; decide, h2.2.1, h.2.2⟩

/-! ## Hexadecimal rendering lemmas -/

theorem data_mk (l : List Char) : (String.mk l).data = l := rfl

theorem length_mk (l : List Char) : (String.mk l).length = l.length := rfl

theorem hexChar_eq_zero_iff {m : Nat} (h : m < 16) : hexChar m = '0' ↔ m = 0 := by
  interval_cases m <;> decide

theorem isLowerHexChar_hexChar {m : Nat} (h : m < 16) :
    isLowerHexChar (hexChar m) = true := by
  interval_cases m <;> decide

theorem isUpperHexChar_toUpper_hexChar {m : Nat} (h : m < 16) :
    isUpperHexChar (Char.toUpper (hexChar m)) = true := by
  interval_cases m <;> decide

theorem natHexDigitsAux_spec :
    ∀ fuel n acc, n < fuel →
      ∃ ds, natHexDigitsAux fuel n acc = ds ++ acc ∧ ds ≠ [] ∧
        (∀ c ∈ ds, ∃ m, m < 16 ∧ c = hexChar m) ∧
        (n ≠ 0 → ds.head? ≠ some '0') ∧ (n = 0 → ds = ['0']) := by
  intro fuel
  induction fuel with
  | zero => intro n acc h; omega
  | succ fuel ih =>
    intro n acc h
    by_cases h16 : n < 16
    · refine ⟨[hexChar n], by simp [natHexDigitsAux, h16], by simp, ?_, ?_, ?_⟩
      · intro c hc
        simp only [List.mem_singleton] at hc
        exact ⟨n, h16, hc⟩
      · intro hn
        simp only [List.head?_cons, ne_eq, Option.some.injEq]
        exact fun hz => hn ((hexChar_eq_zero_iff h16).mp hz)
      · intro hn; subst hn; rfl
    · obtain ⟨ds, hds, hne, hall, hhead, -⟩ :=
        ih (n / 16) (hexChar (n % 16) :: acc) (by omega)
      refine ⟨ds ++ [hexChar (n % 16)], ?_, by simp, ?_, ?_, by omega⟩
      · rw [natHexDigitsAux]
        simp only [if_neg h16]
        rw [hds, List.append_assoc]
        rfl
      · intro c hc
        rw [List.mem_append, List.mem_singleton] at hc
        rcases hc with hc | hc
        · exact hall c hc
        · exact ⟨n % 16, Nat.mod_lt _ (by omega), hc⟩
      · intro _
        rw [List.head?_append_of_ne_nil ds hne]
        exact hhead (by omega)

theorem natHexDigits_spec (n : Nat) :
    natHexDigits n ≠ [] ∧ (∀ c ∈ natHexDigits n, ∃ m, m < 16 ∧ c = hexChar m) ∧
    (n ≠ 0 → (natHexDigits n).head? ≠ some '0') ∧
    (n = 0 → natHexDigits n = ['0']) := by
  obtain ⟨ds, hds, hne, hall, hhead, hzero⟩ := natHexDigitsAux_spec (n + 1) n [] (by omega)
  unfold natHexDigits
  rw [hds, List.append_nil]
  exact ⟨hne, hall, hhead, hzero⟩

theorem natHexDigits_length_le_100 :
    ∀ m, m ≤ 100 → (natHexDigits m).length = 1 ∨ (natHexDigits m).length = 2 := by
  decide

theorem pyFormat02X_spec {n : Int} (h0 : 0 ≤ n) (h1 : n ≤ 100) :
    (pyFormat02X n).length = 2 ∧
    ∀ c ∈ (pyFormat02X n).data, isUpperHexChar c = true := by
  have hna : n.natAbs ≤ 100 := by omega
  have hlen := natHexDigits_length_le_100 n.natAbs hna
  have hneg : ¬ n < 0 := by omega
  obtain ⟨-, hall, -, -⟩ := natHexDigits_spec n.natAbs
  constructor
  · simp only [pyFormat02X, if_neg hneg, length_mk, List.length_append,
      List.length_replicate, List.length_map]
    omega
  · intro c hc
    simp only [pyFormat02X, if_neg hneg, data_mk] at hc
    rw [List.mem_append] at hc
    rcases hc with hc | hc
    · have hc0 : c = '0' := List.eq_of_mem_replicate hc
      subst hc0; decide
    · rw [List.mem_map] at hc
      obtain ⟨d, hd, rfl⟩ := hc
      obtain ⟨m, hm, rfl⟩ := hall d hd
      exact isUpperHexChar_toUpper_hexChar hm

/-! ## CRC-32 range lemmas -/

theorem crc32Step_lt {c : Nat} (h : c < 2 ^ 32) : crc32Step c < 2 ^ 32 := by
  have h2 : c / 2 < 2 ^ 32 := lt_of_le_of_lt (Nat.div_le_self c 2) h
  unfold crc32Step
  split
  · exact Nat.xor_lt_two_pow h2 (by norm_num)
  · exact h2

theorem crc32Bits_lt : ∀ (k : Nat) {c : Nat}, c < 2 ^ 32 → crc32Bits c k < 2 ^ 32 := by
  intro k
  induction k with
  | zero => intro c h; exact h
  | succ k ih => intro c h; exact ih (crc32Step_lt h)

theorem crc32Update_lt {c : Nat} (b : Nat) (h : c < 2 ^ 32) :
    crc32Update c b < 2 ^ 32 :=
  crc32Bits_lt 8 (Nat.xor_lt_two_pow h
    (lt_of_lt_of_le (Nat.mod_lt _ (by norm_num)) (by norm_num)))

theorem crc32_lt (bytes : List Nat) : crc32 bytes < 2 ^ 32 := by
  unfold crc32
  refine Nat.xor_lt_two_pow ?_ (by norm_num)
  have hfold : ∀ (l : List Nat) (c : Nat), c < 2 ^ 32 →
      List.foldl crc32Update c l < 2 ^ 32 := by
    intro l
    induction l with
    | nil => intro c h; exact h
    | cons a t iht => intro c h; exact iht _ (crc32Update_lt a h)
  exact hfold bytes _ (by norm_num)

theorem crc32_and_mask (bytes : List Nat) :
    crc32 bytes &&& 0xffffffff = crc32 bytes := by
  have h1 : (0xffffffff : Nat) = 2 ^ 32 - 1 := by norm_num
  rw [h1, Nat.and_pow_two_sub_one_eq_mod, Nat.mod_eq_of_lt (crc32_lt bytes)]

/-! ## Claim theorems: password derivation and position rendering -/

/-- C6: for a non-empty secret the constructor stores exactly the CRC-32 of
the secret's ASCII bytes rendered as lowercase hexadecimal with no
leading-zero padding (the `& 0xffffffff` in the source is the identity on
the checksum's range), and the derivation is deterministic across
constructions. -/
theorem password_encoded_crc (mac mac2 : String) (r r2 : Nat) (secret : String)
    (hne : secret ≠ "") :
    (switchbotDeviceInit mac r (some secret))._password_encoded
      = some (pyFormatX (crc32 (asciiBytes secret))) ∧
    (∀ c ∈ (pyFormatX (crc32 (asciiBytes secret))).data, isLowerHexChar c = true) ∧
    (crc32 (asciiBytes secret) ≠ 0 →
      (pyFormatX (crc32 (asciiBytes secret))).data.head? ≠ some '0') ∧
    (crc32 (asciiBytes secret) = 0 → pyFormatX (crc32 (asciiBytes secret)) = "0") ∧
    (switchbotDeviceInit mac r (some secret))._password_encoded
      = (switchbotDeviceInit mac2 r2 (some secret))._password_encoded := by
  obtain ⟨hne2, hall, hhead, hzero⟩ := natHexDigits_spec (crc32 (asciiBytes secret))
  refine ⟨?_, ?_, ?_, ?_, rfl⟩
  · simp [switchbotDeviceInit, hne, crc32_and_mask]
  · intro c hc
    obtain ⟨m, hm, rfl⟩ := hall c hc
    exact isLowerHexChar_hexChar hm
  · intro h0
    exact hhead h0
  · intro h0
    simp [pyFormatX, hzero h0]

set_option maxRecDepth 4096 in
/-- C6 witness: the secret `"password"` encodes to `"35c246d5"`. -/
theorem password_encoded_crc_witness :
    ("password" : String) ≠ "" ∧
    (switchbotDeviceInit "e1:a2" 3 (some "password"))._password_encoded
      = some "35c246d5" := by
  refine ⟨by decide, ?_⟩
  have h := (password_encoded_crc "e1:a2" "x" 3 0 "password" (by decide)).1
  rw [h]
  decide

/-- C7: the position sent is `p` (or `100 − p` in reverse mode) rendered
after `POSITION_KEY` as exactly two zero-padded hexadecimal characters, and
that rendering is what the cache stores. -/
theorem set_position_encoding (send : String → Nat → Bool) (s : SwitchbotCurtain)
    (p : Int) (h0 : 0 ≤ p) (h1 : p ≤ 100) :
    (SwitchbotCurtain.set_position send s p).2.1
      = POSITION_KEY ++ pyFormat02X (if s._reverse then 100 - p else p) ∧
    (SwitchbotCurtain.set_position send s p).1._pos
      = (if s._reverse then 100 - p else p) ∧
    (pyFormat02X (if s._reverse then 100 - p else p)).length = 2 ∧
    ∀ c ∈ (pyFormat02X (if s._reverse then 100 - p else p)).data,
      isUpperHexChar c = true := by
  have hd0 : 0 ≤ (if s._reverse then 100 - p else p) := by split <;> omega
  have hd1 : (if s._reverse then 100 - p else p) ≤ 100 := by split <;> omega
  obtain ⟨hlen, hchars⟩ := pyFormat02X_spec hd0 hd1
  exact ⟨rfl, rfl, hlen, hchars⟩

/-- C7 witness: `set_position 5` on the non-reversed fixture sends
`"570F450105ff05"`, the position byte zero-padded to `"05"`. -/
theorem set_position_encoding_witness :
    (0 : Int) ≤ 5 ∧ (5 : Int) ≤ 100 ∧
    (SwitchbotCurtain.set_position sendStub curtainFixture 5).2.1
      = "570F450105ff05" ∧
    (pyFormat02X 5).length = 2 := by
  have h := set_position_encoding sendStub curtainFixture 5 (by decide) (by decide)
  refine ⟨by decide, by decide, ?_, ?_⟩
  · rw [h.1]; decide
  · exact h.2.2.1

/-! ## Advertisement decoding lemmas -/

theorem pySlice_last6 (pre : List Char) (c1 c2 c3 c4 c5 c6 : Char) :
    pySlice (pre ++ [c1, c2, c3, c4, c5, c6]) (-6) (-4) = [c1, c2] ∧
    pySlice (pre ++ [c1, c2, c3, c4, c5, c6]) (-4) (-2) = [c3, c4] ∧
    pySliceFrom (pre ++ [c1, c2, c3, c4, c5, c6]) (-2) = [c5, c6] := by
  have hlen : (pre ++ [c1, c2, c3, c4, c5, c6]).length = pre.length + 6 := by simp
  have h6 : pyIdx (pre.length + 6) (-6) = pre.length + 0 := by
    unfold pyIdx; split <;> omega
  have h4 : pyIdx (pre.length + 6) (-4) = pre.length + 2 := by
    unfold pyIdx; split <;> omega
  have h2 : pyIdx (pre.length + 6) (-2) = pre.length + 4 := by
    unfold pyIdx; split <;> omega
  refine ⟨?_, ?_, ?_⟩
  · simp only [pySlice, hlen, h6, h4, List.drop_append]
    have he : pre.length + 2 - (pre.length + 0) = 2 := by omega
    rw [he]
    rfl
  · simp only [pySlice, hlen, h4, h2, List.drop_append]
    have he : pre.length + 4 - (pre.length + 2) = 2 := by omega
    rw [he]
    rfl
  · simp only [pySliceFrom, hlen, h2, List.drop_append]
    rfl

theorem pySlice_short (xs : List Char) (h : xs.length ≤ 4) :
    pySlice xs (-6) (-4) = [] := by
  have h6 : pyIdx xs.length (-6) = 0 := by unfold pyIdx; split <;> omega
  have h4 : pyIdx xs.length (-4) = 0 := by unfold pyIdx; split <;> omega
  simp [pySlice, h6, h4]

theorem pySlice_five (c1 c2 c3 c4 c5 : Char) :
    pySlice [c1, c2, c3, c4, c5] (-6) (-4) = [c1] ∧
    pySlice [c1, c2, c3, c4, c5] (-4) (-2) = [c2, c3] ∧
    pySliceFrom [c1, c2, c3, c4, c5] (-2) = [c4, c5] :=
  ⟨rfl, rfl, rfl⟩

theorem hexDigit_ne {c : Char} {d : Nat} (h : hexDigitVal c = some d) (a : Char)
    (ha : hexDigitVal a = none) : c ≠ a := by
  intro he
  rw [he, ha] at h
  exact Option.noConfusion h

theorem hexDigit_not_space {c : Char} {d : Nat} (h : hexDigitVal c = some d) :
    isPySpace c = false := by
  by_contra hs
  rw [Bool.not_eq_false] at hs
  simp only [isPySpace, Bool.or_eq_true, decide_eq_true_eq] at hs
  rcases hs with ((((rfl | rfl) | rfl) | rfl) | rfl) | rfl <;>
    simp [hexDigitVal] at h

theorem pyIntHex_single {c : Char} {d : Nat} (h : hexDigitVal c = some d) :
    pyIntHex [c] = some (d : Int) := by
  have hsp := hexDigit_not_space h
  have hplus : c ≠ '+' := hexDigit_ne h '+' (by decide)
  have hminus : c ≠ '-' := hexDigit_ne h '-' (by decide)
  have hstrip : stripPySpace [c] = [c] := by
    simp [stripPySpace, List.dropWhile_cons, hsp]
  simp only [pyIntHex, hstrip]
  rw [if_neg hplus, if_neg hminus]
  simp [parsePyHexMagnitude, hexRunVal, h, hexDigitsTail]

theorem pyIntHex_pair {c1 c2 : Char} {d1 d2 : Nat} (h1 : hexDigitVal c1 = some d1)
    (h2 : hexDigitVal c2 = some d2) :
    pyIntHex [c1, c2] = some ((16 * d1 + d2 : Nat) : Int) := by
  have hsp1 := hexDigit_not_space h1
  have hsp2 := hexDigit_not_space h2
  have hplus : c1 ≠ '+' := hexDigit_ne h1 '+' (by decide)
  have hminus : c1 ≠ '-' := hexDigit_ne h1 '-' (by decide)
  have hx : c2 ≠ 'x' := hexDigit_ne h2 'x' (by decide)
  have hX : c2 ≠ 'X' := hexDigit_ne h2 'X' (by decide)
  have hstrip : stripPySpace [c1, c2] = [c1, c2] := by
    simp [stripPySpace, List.dropWhile_cons, hsp1, hsp2]
  have harith : d1 * 16 + d2 = 16 * d1 + d2 := by ring
  have hcond : (c1 = '0' && (c2 = 'x' || c2 = 'X')) = false := by
    simp [hx, hX]
  have hmag : parsePyHexMagnitude [c1, c2] = some (16 * d1 + d2) := by
    simp [parsePyHexMagnitude, hcond, hexRunVal, h1, h2, hexDigitsTail, harith]
  simp only [pyIntHex, hstrip]
  rw [if_neg hplus, if_neg hminus, hmag]
  rfl

theorem processAdv_short (s : SwitchbotCurtain) (value : String)
    (h : value.data.length ≤ 4) : processAdv s value = ⟨s, true⟩ := by
  have hs := pySlice_short value.data h
  simp only [processAdv, hs]
  rfl

theorem handleDiscoveryLoop_single (s : SwitchbotCurtain) (value : String) :
    handleDiscoveryLoop s [(22, value)] =
      ⟨(processAdv s value).driver, (processAdv s value).raised⟩ := by
  show (if (processAdv s value).raised = true then processAdv s value
        else handleDiscoveryLoop (processAdv s value).driver []) = _
  by_cases h : (processAdv s value).raised = true
  · rw [if_pos h]
  · rw [if_neg h]
    rw [Bool.not_eq_true] at h
    rw [h]
    rfl

theorem processAdv_hex (s : SwitchbotCurtain) (pre : List Char)
    (c1 c2 c3 c4 c5 c6 : Char) (d1 d2 d3 d4 d5 d6 : Nat)
    (h1 : hexDigitVal c1 = some d1) (h2 : hexDigitVal c2 = some d2)
    (h3 : hexDigitVal c3 = some d3) (h4 : hexDigitVal c4 = some d4)
    (h5 : hexDigitVal c5 = some d5) (h6 : hexDigitVal c6 = some d6) :
    processAdv s (String.mk (pre ++ [c1, c2, c3, c4, c5, c6])) =
      ⟨{ s with
          _battery_percent := (16 * d1 + d2 : Nat),
          _pos := (16 * d3 + d4 : Nat),
          _light_level := (16 * d5 + d6 : Nat) },
       false⟩ := by
  obtain ⟨e1, e2, e3⟩ := pySlice_last6 pre c1 c2 c3 c4 c5 c6
  simp only [processAdv, data_mk, e1, e2, e3, pyIntHex_pair h1 h2,
    pyIntHex_pair h3 h4, pyIntHex_pair h5 h6]

/-! ## Claim theorems: advertisement decoding -/

/-- C8: a type-22 buffer whose trailing six characters are hexadecimal
decodes chars [-6:-4] as battery, [-4:-2] as position and [-2:] as light
level, and the three values overwrite the cached fields when the
advertiser's address matches the device's case-insensitively. -/
theorem handleDiscovery_decodes (s : SwitchbotCurtain) (devAddr : String)
    (pre : List Char) (c1 c2 c3 c4 c5 c6 : Char) (d1 d2 d3 d4 d5 d6 : Nat)
    (hmac : pyLower s._mac = pyLower devAddr)
    (h1 : hexDigitVal c1 = some d1) (h2 : hexDigitVal c2 = some d2)
    (h3 : hexDigitVal c3 = some d3) (h4 : hexDigitVal c4 = some d4)
    (h5 : hexDigitVal c5 = some d5) (h6 : hexDigitVal c6 = some d6) :
    handleDiscovery s devAddr [(22, String.mk (pre ++ [c1, c2, c3, c4, c5, c6]))] =
      ⟨{ s with
          _battery_percent := (16 * d1 + d2 : Nat),
          _pos := (16 * d3 + d4 : Nat),
          _light_level := (16 * d5 + d6 : Nat) },
       false⟩ := by
  unfold handleDiscovery
  rw [if_pos hmac, handleDiscoveryLoop_single,
    processAdv_hex s pre c1 c2 c3 c4 c5 c6 d1 d2 d3 d4 d5 d6 h1 h2 h3 h4 h5 h6]

/-- C8 witness: the buffer `"321E32"` decodes to battery 50, position 30,
light level 50 on the fixture device. -/
theorem handleDiscovery_decodes_witness :
    pyLower curtainFixture._mac = pyLower "E1:A2" ∧
    handleDiscovery curtainFixture "E1:A2" [(22, "321E32")] =
      ⟨{ curtainFixture with
          _battery_percent := 50,
          _pos := 30,
          _light_level := 50 }, false⟩ := by
  refine ⟨by decide, ?_⟩
  have h := handleDiscovery_decodes curtainFixture "E1:A2" [] '3' '2' '1' 'E' '3' '2'
    3 2 1 14 3 2 (by decide) (by decide) (by decide) (by decide) (by decide)
    (by decide) (by decide)
  exact h

/-- C1 counterexample: the 5-character (hence malformed, per the claim)
type-22 buffer `"21E32"` is not discarded: it decodes without failure and
overwrites all three cached fields. -/
theorem malformed_adv_counterexample :
    ("21E32" : String).data.length < 6 ∧
    (handleDiscovery curtainFixture "E1:A2" [(22, "21E32")]).raised = false ∧
    (handleDiscovery curtainFixture "E1:A2" [(22, "21E32")]).driver._pos
      ≠ curtainFixture._pos ∧
    (handleDiscovery curtainFixture "E1:A2" [(22, "21E32")]).driver._battery_percent
      ≠ curtainFixture._battery_percent ∧
    (handleDiscovery curtainFixture "E1:A2" [(22, "21E32")]).driver._light_level
      ≠ curtainFixture._light_level := by
  decide

/-- C1 (amended): a type-22 buffer of at most 4 characters fails before any
field is written — the failure escapes `handleDiscovery` (it is not
swallowed) with the three cached fields unchanged; a 5-character buffer is
not discarded but decoded through Python's clamped slices (chars [0:1],
[1:3], [3:5]), overwriting all three fields; and a buffer of 6 or more
characters whose battery pair is hexadecimal but whose position pair is
rejected by `int(_, 16)` fails only after the battery field was already
overwritten. -/
theorem malformed_adv_behavior :
    (∀ (s : SwitchbotCurtain) (devAddr value : String),
      pyLower s._mac = pyLower devAddr → value.data.length ≤ 4 →
      handleDiscovery s devAddr [(22, value)] = ⟨s, true⟩) ∧
    (∀ (s : SwitchbotCurtain) (devAddr : String) (c1 c2 c3 c4 c5 : Char)
      (d1 d2 d3 d4 d5 : Nat),
      pyLower s._mac = pyLower devAddr →
      hexDigitVal c1 = some d1 → hexDigitVal c2 = some d2 →
      hexDigitVal c3 = some d3 → hexDigitVal c4 = some d4 →
      hexDigitVal c5 = some d5 →
      handleDiscovery s devAddr [(22, String.mk [c1, c2, c3, c4, c5])] =
        ⟨{ s with
            _battery_percent := (d1 : Nat),
            _pos := (16 * d2 + d3 : Nat),
            _light_level := (16 * d4 + d5 : Nat) }, false⟩) ∧
    (∀ (s : SwitchbotCurtain) (devAddr : String) (pre : List Char)
      (c1 c2 c3 c4 c5 c6 : Char) (d1 d2 : Nat),
      pyLower s._mac = pyLower devAddr →
      hexDigitVal c1 = some d1 → hexDigitVal c2 = some d2 →
      pyIntHex [c3, c4] = none →
      handleDiscovery s devAddr [(22, String.mk (pre ++ [c1, c2, c3, c4, c5, c6]))] =
        ⟨{ s with _battery_percent := (16 * d1 + d2 : Nat) }, true⟩) := by
  refine ⟨?_, ?_, ?_⟩
  · intro s devAddr value hmac hlen
    unfold handleDiscovery
    rw [if_pos hmac, handleDiscoveryLoop_single, processAdv_short s value hlen]
  · intro s devAddr c1 c2 c3 c4 c5 d1 d2 d3 d4 d5 hmac h1 h2 h3 h4 h5
    obtain ⟨e1, e2, e3⟩ := pySlice_five c1 c2 c3 c4 c5
    unfold handleDiscovery
    rw [if_pos hmac, handleDiscoveryLoop_single]
    simp only [processAdv, data_mk, e1, e2, e3, pyIntHex_single h1,
      pyIntHex_pair h2 h3, pyIntHex_pair h4 h5]
  · intro s devAddr pre c1 c2 c3 c4 c5 c6 d1 d2 hmac h1 h2 h34
    obtain ⟨e1, e2, -⟩ := pySlice_last6 pre c1 c2 c3 c4 c5 c6
    unfold handleDiscovery
    rw [if_pos hmac, handleDiscoveryLoop_single]
    simp only [processAdv, data_mk, e1, e2, pyIntHex_pair h1 h2, h34]

/-- C1 (amended) witness: a 3-character buffer fails with fields unchanged;
`"32ZZ32"` fails only after the battery field was overwritten with 0x32. -/
theorem malformed_adv_behavior_witness :
    pyLower curtainFixture._mac = pyLower "E1:A2" ∧
    ("1E3" : String).data.length ≤ 4 ∧
    handleDiscovery curtainFixture "E1:A2" [(22, "1E3")] = ⟨curtainFixture, true⟩ ∧
    handleDiscovery curtainFixture "E1:A2" [(22, "32ZZ32")] =
      ⟨{ curtainFixture with _battery_percent := 50 }, true⟩ := by
  refine ⟨by decide, by decide, ?_, ?_⟩
  · exact malformed_adv_behavior.1 curtainFixture "E1:A2" "1E3" (by decide) (by decide)
  · exact malformed_adv_behavior.2.2 curtainFixture "E1:A2" [] '3' '2' 'Z' 'Z' '3' '2'
      3 2 (by decide) (by decide) (by decide) (by decide)

end PySwitchbot
